import Mathlib

/-!
Verification development for the membership-inference-attack (MIA) pipeline of
the replicate-MIA-on-GNNs repository.  The Python sources are shallowly
embedded: module-level attribute lookup and Python keyword-argument binding are
modelled explicitly (an `AttributeError` or `TypeError` is an `Except.error`),
torch tensors of per-node statistics are lists of real numbers, float NaN
(arising from `torch.std` on a single sample) is modelled by `Option.none`,
and `torch.Tensor.logit` (no `eps` argument) is a function into the extended
reals so that its behaviour at probabilities 0 and 1 is captured exactly.
-/

namespace MIA

/-! ### Python errors and keyword-argument binding -/

/-- Python exception kinds relevant to the dispatch code of `run_mia.py` and
`utils.fresh_model`: `AttributeError` (failed attribute lookup) and
`TypeError` (failed call binding). -/
inductive PyErr where
  | attributeError (msg : String)
  | typeError (msg : String)
  deriving DecidableEq, Repr

/-- Binding of a Python call that passes only keyword arguments.  `params` are
the callee parameters after `self`, paired with whether they carry a default
value; `given` are the keyword names supplied at the call site.  Python raises
`TypeError` for an unexpected keyword and for a missing required argument. -/
def bindKwargs (params : List (String × Bool)) (given : List String) : Except PyErr Unit :=
  match given.find? (fun g => !(params.any (fun p => p.1 == g))) with
  | some g => .error (.typeError ("unexpected keyword argument " ++ g))
  | none =>
    match params.find? (fun p => !p.2 && !(given.contains p.1)) with
    | some p => .error (.typeError ("missing required argument " ++ p.1))
    | none => .ok ()

/-! ### The attacks module surface (src/attacks.py) -/

/-- Class names defined at top level in `attacks.py`. -/
def attacksModuleClasses : List String :=
  ["BasicShadowAttack", "ConfidenceAttack", "OfflineLiRA"]

/-- Constructor parameters (after `self`, with default flags) of each attack
class in `attacks.py`. -/
def ctorSig : String → List (String × Bool)
  | "BasicShadowAttack" =>
      [("target_model", false), ("shadow_dataset", false), ("target_samples", false),
        ("config", false)]
  | "ConfidenceAttack" =>
      [("target_model", false), ("target_samples", false), ("config", false)]
  | "OfflineLiRA" =>
      [("target_model", false), ("population", false), ("config", false)]
  | _ => []

/-- Parameters (after `self`) of each attack class's `run_attack` method in
`attacks.py`: only `OfflineLiRA.run_attack` takes `target_samples`. -/
def runAttackSig : String → List (String × Bool)
  | "OfflineLiRA" => [("target_samples", false)]
  | _ => []

/-- Keyword arguments passed to `run_attack` at every call site in
`MembershipInferenceExperiment.run` (`run_mia.py`). -/
def runAttackCallKw : List String := ["target_samples"]

/-- One branch body of `MembershipInferenceExperiment.run`: look up the class
named `klass` in the `attacks` module, bind its constructor call with the
keywords `ctorKw` used at the call site, then bind the
`run_attack(target_samples=...)` call.  The dataset split and target-model
training preceding the lookup are external collaborators assumed to succeed. -/
def runAttackCall (klass : String) (ctorKw : List String) : Except PyErr Unit :=
  if attacksModuleClasses.contains klass then do
    let _ ← bindKwargs (ctorSig klass) ctorKw
    let _ ← bindKwargs (runAttackSig klass) runAttackCallKw
    pure ()
  else .error (.attributeError ("module attacks has no attribute " ++ klass))

/-- The `if config.attack == ...` dispatch chain of
`MembershipInferenceExperiment.run` (`run_mia.py` lines 92-130), with the class
referenced and the constructor keywords of each branch taken verbatim from the
source. -/
def attackBranch (attack : String) : Except PyErr Unit :=
  if attack == "basic-shadow" then
    runAttackCall "BasicShadowAttack" ["target_model", "shadow_dataset", "config"]
  else if attack == "confidence" then
    runAttackCall "ConfidenceAttack" ["target_model", "config"]
  else if attack == "lira" then
    runAttackCall "LiRA" ["target_model", "population", "config"]
  else if attack == "rmia" then
    runAttackCall "RMIA" ["target_model", "population", "config"]
  else .error (.attributeError ("No attack named " ++ attack))

/-- Default of the `--rmia-offline-interp-param` argparse option
(`run_mia.py` line 216), modelled as an exact rational. -/
def rmiaOfflineInterpParamDefault : ℚ := 0.6

/-! ### The models module surface and utils.fresh_model (src/models.py, src/utils.py) -/

/-- Class names defined at top level in `models.py`. -/
def modelsModuleClasses : List String :=
  ["BaseGNN", "GCN", "SGC", "GraphSAGE", "GAT", "GIN", "DecoupledGCN"]

/-- Constructor parameters (after `self`, with default flags) of each class in
`models.py`. -/
def modelCtorSig : String → List (String × Bool)
  | "BaseGNN" => [("dropout", true)]
  | "GCN" =>
      [("in_dim", false), ("hidden_dims", false), ("out_dim", false), ("dropout", true)]
  | "SGC" =>
      [("in_dim", false), ("hidden_dims", false), ("out_dim", false), ("dropout", true)]
  | "GraphSAGE" =>
      [("in_dim", false), ("hidden_dims", false), ("out_dim", false), ("dropout", true)]
  | "GAT" =>
      [("in_dim", false), ("hidden_dims", false), ("out_dim", false), ("heads", false),
        ("dropout", true)]
  | "GIN" =>
      [("in_dim", false), ("hidden_dims", false), ("out_dim", false), ("dropout", true)]
  | "DecoupledGCN" =>
      [("in_dim", false), ("hidden_dim", false), ("out_dim", false), ("dropout", true),
        ("num_propagations", true)]
  | _ => []

/-- Keyword arguments `utils.fresh_model` passes to the model constructor
(`utils.py` lines 47-52): note the singular `hidden_dim`. -/
def freshModelCallKw : List String := ["in_dim", "hidden_dim", "out_dim", "dropout"]

/-- `utils.fresh_model`: `getattr(models, model_type)` raises `AttributeError`
for a name the module does not define, which the `except AttributeError` block
re-raises with the message listing the supported models; for a defined name the
constructor call is bound with `freshModelCallKw`, and a `TypeError` from that
binding propagates uncaught. -/
def fresh_model (model_type : String) : Except PyErr Unit :=
  if modelsModuleClasses.contains model_type then
    bindKwargs (modelCtorSig model_type) freshModelCallKw
  else
    .error (.attributeError ("Unsupported model " ++ model_type ++
      ". Supported models are GCN, SGC, GraphSAGE, GAT and GIN."))

/-! ### Best-ROC tracking across repetitions (run_mia.py lines 86-153) -/

/-- The per-repetition update of `best_auroc`/`best_roc` in
`MembershipInferenceExperiment.run`: starting from `best_auroc = 0` and
`best_roc = None`, repetition `i` replaces both exactly when
`best_auroc < metrics[auroc]`.  The retained ROC curve is identified by the
index of its repetition; AUROC values (floats in the source) are modelled as
rationals. -/
def bestTrack : List ℚ → ℚ → Option Nat → Nat → ℚ × Option Nat
  | [], best, roc, _ => (best, roc)
  | a :: rest, best, roc, i =>
    if best < a then bestTrack rest a (some i) (i + 1)
    else bestTrack rest best roc (i + 1)

/-- The whole tracking loop over a sequence of per-repetition AUROC values,
with the source's initial state `best_auroc = 0`, `best_roc = None`. -/
def runBestTrack (aurocs : List ℚ) : ℚ × Option Nat := bestTrack aurocs 0 none 0

/-! ### The OfflineLiRA statistic (src/attacks.py lines 161-212) -/

/-- A trained GNN model, abstracted to its query behaviour: each node index is
mapped to the row of raw (pre-softmax) class scores the model produces for it. -/
abbrev Model := Nat → List ℝ

/-- Modelled from the spec: `evaluation.k_hop_query` (evaluation.py is not
under src/) returns one row of raw class scores per requested node, in the
order of `queryNodes`. -/
def k_hop_query (m : Model) (queryNodes : List Nat) : List (List ℝ) :=
  queryNodes.map m

/-- Row-wise softmax, `F.softmax(preds, dim=1)` on one row. -/
noncomputable def softmax (row : List ℝ) : List ℝ :=
  row.map (fun z => Real.exp z / (row.map Real.exp).sum)

/-- Maximum of a row, `.max(dim=1).values` on one row; rows produced by a
classifier are nonempty, and `0` is a junk value for the empty row. -/
noncomputable def rowMax : List ℝ → ℝ
  | [] => 0
  | x :: xs => xs.foldl max x

/-- `F.softmax(preds, dim=1).max(dim=1).values` over the queried nodes. -/
noncomputable def confidences (m : Model) (queryNodes : List Nat) : List ℝ :=
  (k_hop_query m queryNodes).map (fun row => rowMax (softmax row))

/-- `torch.Tensor.logit` with its default `eps=None`: no clamping is applied,
so the probabilities 0 and 1 map to minus and plus infinity respectively.
Inputs outside `[0, 1]` (which yield float NaN) are outside the modelled
domain. -/
noncomputable def torchLogit (p : ℝ) : EReal :=
  if p = 0 then ⊥ else if p = 1 then ⊤ else ((Real.log (p / (1 - p)) : ℝ) : EReal)

/-- The finite value of the log-odds transform, equal to `torchLogit p` for
`p` strictly inside `(0, 1)` — the regime of max-softmax confidences of a
multi-class model in exact arithmetic. -/
noncomputable def logitR (p : ℝ) : ℝ := Real.log (p / (1 - p))

/-- `confs.logit()` over the queried nodes (the interior regime of
`torchLogit`). -/
noncomputable def logitVec (m : Model) (queryNodes : List Nat) : List ℝ :=
  (confidences m queryNodes).map logitR

/-- `torch.mean` over a vector of per-shadow-model values. -/
noncomputable def torchMean (xs : List ℝ) : ℝ := xs.sum / xs.length

/-- `torch.std` over a vector of per-shadow-model values: the sample standard
deviation with Bessel correction (the torch default `correction=1`).  On a
sample of at most one value the 0/0 quotient is float NaN, modelled as
`none`. -/
noncomputable def torchStd (xs : List ℝ) : Option ℝ :=
  if xs.length ≤ 1 then none
  else some (Real.sqrt ((xs.map (fun x => (x - torchMean xs) ^ 2)).sum /
    ((xs.length : ℝ) - 1)))

/-- The matrix `torch.stack(logits)` of `OfflineLiRA.get_mean_and_std`: one row
of logit-confidences per shadow model, over query nodes `0, ..., n-1` (the
source queries `range(target_samples.x.shape[0])`). -/
noncomputable def stackedLogits (shadows : List Model) (n : Nat) : List (List ℝ) :=
  shadows.map (fun s => logitVec s (List.range n))

/-- The shape predicate of the assertion
`logits.shape == torch.Size([len(self.shadow_models), target_samples.x.shape[0]])`. -/
def shapeAssert (mat : List (List ℝ)) (k n : Nat) : Prop :=
  mat.length = k ∧ ∀ row ∈ mat, row.length = n

/-- Column `j` of a stacked matrix: the per-node sample across the shadow
ensemble (`0` is a junk value for an out-of-range index, excluded by the shape
invariant). -/
noncomputable def column (mat : List (List ℝ)) (j : Nat) : List ℝ :=
  mat.map (fun row => row.getD j 0)

/-- `logits.mean(dim=0)` of `get_mean_and_std`: per-node means over the shadow
axis. -/
noncomputable def liraMeans (shadows : List Model) (n : Nat) : List ℝ :=
  (List.range n).map (fun j => torchMean (column (stackedLogits shadows n) j))

/-- `logits.std(dim=0)` of `get_mean_and_std`: per-node sample standard
deviations over the shadow axis (`none` is float NaN). -/
noncomputable def liraStds (shadows : List Model) (n : Nat) : List (Option ℝ) :=
  (List.range n).map (fun j => torchStd (column (stackedLogits shadows n) j))

/-- The Gauss error function, `torch.erf`. -/
noncomputable def erf (x : ℝ) : ℝ :=
  (2 / Real.sqrt Real.pi) * ∫ t in (0:ℝ)..x, Real.exp (-(t ^ 2))

/-- The per-node membership score of `OfflineLiRA.run_attack` as a function of
one node's shadow logit-confidences and target logit-confidence:
`x = (target_logits - means) / (stds + 1e-8)` and
`pred_proba = 0.5 * (1 + torch.erf(x / np.sqrt(2)))`; a NaN standard deviation
(`none`) propagates to a NaN score. -/
noncomputable def liraScore (shadowLogits : List ℝ) (targetLogit : ℝ) : Option ℝ :=
  (torchStd shadowLogits).map (fun s =>
    0.5 * (1 + erf ((targetLogit - torchMean shadowLogits) / (s + 1e-8) / Real.sqrt 2)))

/-- The full vector of membership scores computed by `OfflineLiRA.run_attack`
on query nodes `0, ..., n-1`: the elementwise tensor expression
`0.5 * (1 + torch.erf(((target_logits - means) / (stds + 1e-8)) / np.sqrt(2)))`
with `means`/`stds` from `get_mean_and_std`.  The function is total: no error
is raised on degenerate inputs, NaN entries (`none`) are returned instead. -/
noncomputable def liraScores (target : Model) (shadows : List Model) (n : Nat) :
    List (Option ℝ) :=
  (List.range n).map (fun j =>
    ((liraStds shadows n).getD j none).map (fun s =>
      0.5 * (1 + erf (((logitVec target (List.range n)).getD j 0 -
        (liraMeans shadows n).getD j 0) / (s + 1e-8) / Real.sqrt 2))))

/-- A concrete two-class model answering raw scores `[0, 0]` for every node:
its softmax confidence is `1/2` at each node. -/
noncomputable def wModel : Model := fun _ => [(0 : ℝ), 0]

/-! ### Theorems: dispatch and call-binding claims -/

/-- C3: selecting `attack = "lira"` makes `MembershipInferenceExperiment.run`
fail with an `AttributeError` before producing any membership metrics: the
branch references `attacks.LiRA`, but the attacks module defines the class
only under the name `OfflineLiRA`. -/
theorem lira_dispatch_attribute_error :
    attackBranch "lira" = .error (.attributeError "module attacks has no attribute LiRA")
    ∧ attacksModuleClasses.contains "LiRA" = false
    ∧ attacksModuleClasses.contains "OfflineLiRA" = true :=
  ⟨rfl, rfl, rfl⟩

/-- C2 counterexample: selecting `attack = "rmia"` does not run any attack;
the branch fails with an `AttributeError` because the attacks module defines
no class named `RMIA`. -/
theorem rmia_missing_cex :
    attackBranch "rmia" = .error (.attributeError "module attacks has no attribute RMIA") :=
  rfl

/-- C2 (amended): the dispatcher recognizes `attack = "rmia"` and the
`--rmia-offline-interp-param` option defaults to 0.6, but the attacks module
defines no `RMIA` class, so the branch fails with an `AttributeError` and no
`run_attack` is ever invoked. -/
theorem rmia_dispatch_behavior :
    attackBranch "rmia" = .error (.attributeError "module attacks has no attribute RMIA")
    ∧ attacksModuleClasses.contains "RMIA" = false
    ∧ rmiaOfflineInterpParamDefault = 3 / 5 :=
  ⟨rfl, rfl, by norm_num [rmiaOfflineInterpParamDefault]⟩

/-- C4: for `attack = "basic-shadow"` and `attack = "confidence"` the run
fails with a `TypeError` before returning metrics: both constructors require a
`target_samples` argument the call sites omit, and both `run_attack` methods
take no `target_samples` keyword while the call sites pass one. -/
theorem basic_shadow_confidence_type_errors :
    attackBranch "basic-shadow" = .error (.typeError "missing required argument target_samples")
    ∧ attackBranch "confidence" = .error (.typeError "missing required argument target_samples")
    ∧ (ctorSig "BasicShadowAttack").any (fun p => p.1 == "target_samples") = true
    ∧ (ctorSig "ConfidenceAttack").any (fun p => p.1 == "target_samples") = true
    ∧ runAttackSig "BasicShadowAttack" = []
    ∧ runAttackSig "ConfidenceAttack" = []
    ∧ bindKwargs (runAttackSig "BasicShadowAttack") runAttackCallKw
        = .error (.typeError "unexpected keyword argument target_samples")
    ∧ bindKwargs (runAttackSig "ConfidenceAttack") runAttackCallKw
        = .error (.typeError "unexpected keyword argument target_samples") :=
  ⟨rfl, rfl, rfl, rfl, rfl, rfl, rfl, rfl⟩

/-- C7: `utils.fresh_model` never returns a model for the five names its own
error message lists as supported — the call passes the keyword `hidden_dim`
while every listed constructor expects `hidden_dims` — and for a name the
models module does not define it raises the `AttributeError` listing the
supported models. -/
theorem fresh_model_keyword_mismatch :
    fresh_model "GCN" = .error (.typeError "unexpected keyword argument hidden_dim")
    ∧ fresh_model "SGC" = .error (.typeError "unexpected keyword argument hidden_dim")
    ∧ fresh_model "GraphSAGE" = .error (.typeError "unexpected keyword argument hidden_dim")
    ∧ fresh_model "GAT" = .error (.typeError "unexpected keyword argument hidden_dim")
    ∧ fresh_model "GIN" = .error (.typeError "unexpected keyword argument hidden_dim")
    ∧ fresh_model "UnknownNet" = .error (.attributeError
        "Unsupported model UnknownNet. Supported models are GCN, SGC, GraphSAGE, GAT and GIN.") :=
  ⟨rfl, rfl, rfl, rfl, rfl, rfl⟩

/-! ### Theorems: best-ROC tracking (C9) -/

/-- The initial accumulator is a lower bound of a max-fold. -/
theorem init_le_foldl_max : ∀ (xs : List ℚ) (b : ℚ), b ≤ xs.foldl max b
  | [], b => le_refl b
  | x :: xs, b => le_trans (le_max_left b x) (init_le_foldl_max xs (max b x))

/-- Every element of a list is bounded by the max-fold over it. -/
theorem mem_le_foldl_max : ∀ (xs : List ℚ) (b a : ℚ), a ∈ xs → a ≤ xs.foldl max b
  | [], _, a, h => absurd h (List.not_mem_nil a)
  | x :: xs, b, a, h => by
    rcases List.mem_cons.mp h with h1 | h2
    · subst h1
      exact le_trans (le_max_right b a) (init_le_foldl_max xs (max b a))
    · exact mem_le_foldl_max xs (max b x) a h2

/-- If no element beats the running best, the tracking loop changes nothing. -/
theorem bestTrack_no_update : ∀ (xs : List ℚ) (b : ℚ) (r : Option Nat) (i : Nat),
    (∀ a ∈ xs, a ≤ b) → bestTrack xs b r i = (b, r)
  | [], _, _, _, _ => rfl
  | x :: xs, b, r, i, h => by
    simp only [bestTrack, if_neg (not_lt.mpr (h x (List.mem_cons_self x xs)))]
    exact bestTrack_no_update xs b r (i + 1) (fun a ha => h a (List.mem_cons_of_mem x ha))

/-- Strict-improvement tracking retains the first index attaining the running
maximum, whenever some element strictly beats the initial best. -/
theorem bestTrack_spec : ∀ (xs : List ℚ) (b : ℚ) (r : Option Nat) (i : Nat),
    b < xs.foldl max b →
    ∃ k, k < xs.length ∧ (bestTrack xs b r i).2 = some (i + k)
      ∧ xs.getD k 0 = xs.foldl max b
      ∧ ∀ l, l < k → xs.getD l 0 < xs.foldl max b
  | [], b, _, _, h => absurd h (lt_irrefl b)
  | x :: xs, b, r, i, h => by
    by_cases hbx : b < x
    · have hstep : bestTrack (x :: xs) b r i = bestTrack xs x (some i) (i + 1) := by
        simp only [bestTrack, if_pos hbx]
      have hfold : (x :: xs).foldl max b = xs.foldl max x := by
        simp only [List.foldl_cons, max_eq_right hbx.le]
      rcases eq_or_lt_of_le (init_le_foldl_max xs x) with heq | hlt
      · refine ⟨0, Nat.succ_pos _, ?_, ?_, ?_⟩
        · rw [hstep, bestTrack_no_update xs x (some i) (i + 1)
            (fun a ha => le_of_le_of_eq (mem_le_foldl_max xs x a ha) heq.symm)]
          simp
        · rw [hfold, ← heq]
          rfl
        · intro l hl
          exact absurd hl (Nat.not_lt_zero l)
      · obtain ⟨k, hk, h2, h3, h4⟩ := bestTrack_spec xs x (some i) (i + 1) hlt
        refine ⟨k + 1, Nat.succ_lt_succ hk, ?_, ?_, ?_⟩
        · rw [hstep, h2]
          exact congrArg some (by omega)
        · rw [hfold]
          simpa using h3
        · intro l hl
          rw [hfold]
          cases l with
          | zero => simpa using hlt
          | succ m => simpa using h4 m (Nat.lt_of_succ_lt_succ hl)
    · have hstep : bestTrack (x :: xs) b r i = bestTrack xs b r (i + 1) := by
        simp only [bestTrack, if_neg hbx]
      have hfold : (x :: xs).foldl max b = xs.foldl max b := by
        simp only [List.foldl_cons, max_eq_left (not_lt.mp hbx)]
      rw [hfold] at h
      obtain ⟨k, hk, h2, h3, h4⟩ := bestTrack_spec xs b r (i + 1) h
      refine ⟨k + 1, Nat.succ_lt_succ hk, ?_, ?_, ?_⟩
      · rw [hstep, h2]
        exact congrArg some (by omega)
      · rw [hfold]
        simpa using h3
      · intro l hl
        rw [hfold]
        cases l with
        | zero => simpa using lt_of_le_of_lt (not_lt.mp hbx) h
        | succ m => simpa using h4 m (Nat.lt_of_succ_lt_succ hl)

/-- C9 counterexample: with the single-repetition AUROC sequence `[0]`
(`R = 1`), the tracking loop retains no ROC curve at all — `best_roc` stays
`None`, because the update condition `best_auroc < auroc` is strict and
`best_auroc` starts at `0`. -/
theorem best_roc_all_zero_none :
    (runBestTrack [(0 : ℚ)]).2 = none := by
  simp [runBestTrack, bestTrack]

/-- C9 (amended): across repetitions, whenever at least one repetition has a
strictly positive AUROC, the run retains the ROC curve of the first repetition
achieving the maximum AUROC; if every AUROC is `0` (or the list is empty),
`best_roc` remains `None`. -/
theorem best_roc_tracks_max (aurocs : List ℚ) (h : ∃ a ∈ aurocs, 0 < a) :
    ∃ k, k < aurocs.length ∧ (runBestTrack aurocs).2 = some k
      ∧ (∀ l, l < aurocs.length → aurocs.getD l 0 ≤ aurocs.getD k 0)
      ∧ ∀ l, l < k → aurocs.getD l 0 < aurocs.getD k 0 := by
  obtain ⟨a, ha, hpos⟩ := h
  have h0 : (0 : ℚ) < aurocs.foldl max 0 :=
    lt_of_lt_of_le hpos (mem_le_foldl_max aurocs 0 a ha)
  obtain ⟨k, hk, h2, h3, h4⟩ := bestTrack_spec aurocs 0 none 0 h0
  refine ⟨k, hk, ?_, ?_, ?_⟩
  · simpa [runBestTrack] using h2
  · intro l hl
    rw [h3]
    have hmem : aurocs.getD l 0 ∈ aurocs := by
      rw [List.getD_eq_getElem aurocs 0 hl]
      exact List.getElem_mem hl
    exact mem_le_foldl_max aurocs 0 _ hmem
  · intro l hl
    rw [h3]
    exact h4 l hl

/-- C9 witness: on the concrete AUROC sequence `[1/2]` the hypothesis holds
and the loop retains repetition 0, the (first) repetition achieving the
maximum. -/
theorem best_roc_tracks_max_witness :
    (∃ a ∈ [(1 : ℚ) / 2], 0 < a)
    ∧ ∃ k, k < ([(1 : ℚ) / 2]).length ∧ (runBestTrack [(1 : ℚ) / 2]).2 = some k
      ∧ (∀ l, l < ([(1 : ℚ) / 2]).length →
          ([(1 : ℚ) / 2]).getD l 0 ≤ ([(1 : ℚ) / 2]).getD k 0)
      ∧ ∀ l, l < k → ([(1 : ℚ) / 2]).getD l 0 < ([(1 : ℚ) / 2]).getD k 0 :=
  ⟨⟨1 / 2, by simp, by norm_num⟩,
    best_roc_tracks_max [1 / 2] ⟨1 / 2, by simp, by norm_num⟩⟩

/-! ### Theorems: the OfflineLiRA statistic -/

/-- The error function vanishes at the origin. -/
theorem erf_zero : erf 0 = 0 := by
  unfold erf
  rw [intervalIntegral.integral_same, mul_zero]

/-- Indexing with a default into a mapped range extracts the function value. -/
theorem getD_map_range {α : Type} (f : Nat → α) (d : α) {n j : Nat} (hj : j < n) :
    ((List.range n).map f).getD j d = f j := by
  simp [List.getD_eq_getElem?_getD, List.getElem?_map, List.getElem?_range, hj]

/-- A column of a stacked matrix has one entry per row. -/
theorem column_length (mat : List (List ℝ)) (j : Nat) :
    (column mat j).length = mat.length := by
  simp [column]

/-- The stacked logit matrix has one row per shadow model. -/
theorem stackedLogits_length (shadows : List Model) (n : Nat) :
    (stackedLogits shadows n).length = shadows.length := by
  simp [stackedLogits]

/-- A logit-confidence vector has one entry per queried node. -/
theorem logitVec_length (m : Model) (qs : List Nat) :
    (logitVec m qs).length = qs.length := by
  simp [logitVec, confidences, k_hop_query]

/-- On a sample of at least two values, `torch.std` is the finite sample
standard deviation. -/
theorem torchStd_of_two_le (xs : List ℝ) (h : 2 ≤ xs.length) :
    torchStd xs = some (Real.sqrt ((xs.map (fun x => (x - torchMean xs) ^ 2)).sum /
      ((xs.length : ℝ) - 1))) := by
  unfold torchStd
  rw [if_neg (by omega)]

/-- When the target logit-confidence equals the shadow mean, the LiRA score is
exactly one half: the normalized statistic is `0` and `erf 0 = 0`. -/
theorem liraScore_self_mean (xs : List ℝ) (t : ℝ) (h2 : 2 ≤ xs.length)
    (ht : t = torchMean xs) :
    liraScore xs t = some (1 / 2) := by
  unfold liraScore
  rw [torchStd_of_two_le xs h2, Option.map_some']
  rw [ht, sub_self, zero_div, zero_div, erf_zero]
  norm_num

/-- The mean of a constant sample is that constant. -/
theorem torchMean_replicate (n : Nat) (x : ℝ) (hn : n ≠ 0) :
    torchMean (List.replicate n x) = x := by
  unfold torchMean
  rw [List.sum_replicate, nsmul_eq_mul, List.length_replicate]
  exact mul_div_cancel_left₀ x (Nat.cast_ne_zero.mpr hn)

/-- The sample standard deviation of a constant sample of size at least two is
exactly zero (not NaN). -/
theorem torchStd_replicate (n : Nat) (x : ℝ) (hn : 2 ≤ n) :
    torchStd (List.replicate n x) = some 0 := by
  rw [torchStd_of_two_le _ (by simpa using hn)]
  rw [torchMean_replicate n x (by omega), List.map_replicate]
  norm_num [List.sum_replicate]

/-- C6 counterexample: with fifty identical shadow confidences 0.9 and target
confidence 0.9, the LiRA membership probability is exactly one half — strictly
below 0.9 — so it does not saturate near 1.0 as claimed. -/
theorem lira_constant_shadow_cex :
    liraScore (List.replicate 50 (logitR (9 / 10))) (logitR (9 / 10)) = some (1 / 2)
    ∧ (1 : ℝ) / 2 < 9 / 10 :=
  ⟨liraScore_self_mean _ _ (by norm_num)
      (torchMean_replicate 50 (logitR (9 / 10)) (by norm_num)).symm,
    by norm_num⟩

/-- C6 (amended): with fifty identical shadow confidences 0.9 (sample std
exactly 0) and target confidence 0.9, the 1e-8 std floor prevents division by
zero, the normalized statistic is `0`, and the membership probability is
exactly one half — finite and not NaN, but not near 1.0. -/
theorem lira_constant_shadow_half :
    torchStd (List.replicate 50 (logitR (9 / 10))) = some 0
    ∧ liraScore (List.replicate 50 (logitR (9 / 10))) (logitR (9 / 10)) = some (1 / 2) :=
  ⟨torchStd_replicate 50 (logitR (9 / 10)) (by norm_num),
    liraScore_self_mean _ _ (by norm_num)
      (torchMean_replicate 50 (logitR (9 / 10)) (by norm_num)).symm⟩

/-- C5 counterexample: `torch.Tensor.logit` is applied with no epsilon
clamping, so the boundary confidences map to the infinities: the transform of
1 is plus infinity and the transform of 0 is minus infinity, not a finite
value. -/
theorem torchLogit_boundary_infinite :
    torchLogit 1 = ⊤ ∧ torchLogit 0 = ⊥ := by
  constructor
  · unfold torchLogit
    rw [if_neg one_ne_zero, if_pos rfl]
  · unfold torchLogit
    rw [if_pos rfl]

/-- C5 (amended): the code applies `torch.logit` with no epsilon clamp, so
finiteness holds exactly on the open interval: for `0 < p < 1` the transform
is the finite log-odds value `log(p / (1 - p))`. -/
theorem torchLogit_interior_finite (p : ℝ) (h0 : 0 < p) (h1 : p < 1) :
    torchLogit p = ((logitR p : ℝ) : EReal) := by
  unfold torchLogit logitR
  rw [if_neg (ne_of_gt h0), if_neg (ne_of_lt h1)]

/-- C5 witness: at the concrete confidence `1/2` the hypotheses hold and the
transform is the finite real `log 1`. -/
theorem torchLogit_interior_finite_witness :
    (0 : ℝ) < 1 / 2 ∧ (1 : ℝ) / 2 < 1
    ∧ torchLogit (1 / 2) = ((logitR (1 / 2) : ℝ) : EReal) :=
  ⟨by norm_num, by norm_num, torchLogit_interior_finite (1 / 2) (by norm_num) (by norm_num)⟩

/-- C8: for every shadow ensemble and query set, the stacked logit matrix of
`get_mean_and_std` has shape exactly `(K, n)` — the internal shape assertion
holds — and every per-node sample, mean vector and std vector ranges over the
`K` shadow axis. -/
theorem get_mean_and_std_shape (shadows : List Model) (n : Nat) :
    shapeAssert (stackedLogits shadows n) shadows.length n
    ∧ (∀ j, j < n → (column (stackedLogits shadows n) j).length = shadows.length)
    ∧ (liraMeans shadows n).length = n
    ∧ (liraStds shadows n).length = n := by
  refine ⟨⟨stackedLogits_length shadows n, ?_⟩, ?_, ?_, ?_⟩
  · intro row hrow
    simp only [stackedLogits, List.mem_map] at hrow
    obtain ⟨s, _, rfl⟩ := hrow
    rw [logitVec_length]
    exact List.length_range n
  · intro j _
    rw [column_length, stackedLogits_length]
  · simp [liraMeans]
  · simp [liraStds]

/-- C8 witness: the shape invariant instantiated on a concrete one-model
ensemble and one query node. -/
theorem get_mean_and_std_shape_witness :
    shapeAssert (stackedLogits [wModel] 1) 1 1
    ∧ ((0 : Nat) < 1 → (column (stackedLogits [wModel] 1) 0).length = 1) :=
  ⟨(get_mean_and_std_shape [wModel] 1).1,
    fun h => (get_mean_and_std_shape [wModel] 1).2.1 0 h⟩

/-- The per-node mean used by `run_attack` is the mean of that node's shadow
sample. -/
theorem liraMeans_getD (shadows : List Model) (n j : Nat) (hj : j < n) :
    (liraMeans shadows n).getD j 0 = torchMean (column (stackedLogits shadows n) j) := by
  unfold liraMeans
  exact getD_map_range _ _ hj

/-- The per-node std used by `run_attack` is the std of that node's shadow
sample. -/
theorem liraStds_getD (shadows : List Model) (n j : Nat) (hj : j < n) :
    (liraStds shadows n).getD j none = torchStd (column (stackedLogits shadows n) j) := by
  unfold liraStds
  exact getD_map_range _ _ hj

/-- C1: for every query node `j`, `run_attack` computes the membership score
from that node's `K` shadow logit-confidences as
`p = 0.5 * (1 + erf(z / sqrt 2))` with
`z = (x_target - mean) / (std + 1e-8)`; in particular, whenever the target
logit-confidence equals the per-node shadow mean, the score is exactly
one half. -/
theorem lira_run_attack_formula (target : Model) (shadows : List Model) (n j : Nat)
    (hj : j < n) :
    (liraScores target shadows n).getD j none
      = liraScore (column (stackedLogits shadows n) j)
          ((logitVec target (List.range n)).getD j 0)
    ∧ ((logitVec target (List.range n)).getD j 0
          = torchMean (column (stackedLogits shadows n) j) →
        2 ≤ shadows.length →
        (liraScores target shadows n).getD j none = some (1 / 2)) := by
  have hform : (liraScores target shadows n).getD j none
      = liraScore (column (stackedLogits shadows n) j)
          ((logitVec target (List.range n)).getD j 0) := by
    unfold liraScores
    rw [getD_map_range _ _ hj, liraStds_getD shadows n j hj]
    simp only [liraMeans_getD shadows n j hj]
    rfl
  refine ⟨hform, fun hmean hK => ?_⟩
  rw [hform]
  exact liraScore_self_mean _ _ (by rw [column_length, stackedLogits_length]; exact hK) hmean

/-- Softmax of the two-class zero-score row is the uniform distribution. -/
theorem softmax_pair : softmax [(0 : ℝ), 0] = [1 / 2, 1 / 2] := by
  norm_num [softmax, Real.exp_zero]

/-- The maximal uniform two-class confidence is one half. -/
theorem rowMax_pair : rowMax [(1 : ℝ) / 2, 1 / 2] = 1 / 2 := by
  simp [rowMax]

/-- The log-odds of the confidence one half vanish. -/
theorem logitR_half : logitR (1 / 2) = 0 := by
  unfold logitR
  rw [show (1 : ℝ) / 2 / (1 - 1 / 2) = 1 by norm_num, Real.log_one]

/-- The logit-confidence vector of the concrete two-class model on one query
node. -/
theorem wModel_logitVec : logitVec wModel (List.range 1) = [0] := by
  unfold logitVec confidences k_hop_query wModel
  rw [show List.range 1 = [0] by decide]
  simp only [List.map_cons, List.map_nil]
  rw [softmax_pair, rowMax_pair, logitR_half]

/-- The per-node shadow mean of the concrete two-model ensemble vanishes. -/
theorem wModel_mean : torchMean (column (stackedLogits [wModel, wModel] 1) 0) = 0 := by
  norm_num [stackedLogits, column, torchMean, wModel_logitVec]

/-- C1 witness: on a concrete two-model shadow ensemble whose logit-confidence
at the single query node equals the target logit-confidence, `run_attack`
yields exactly one half. -/
theorem lira_run_attack_formula_witness :
    (0 : Nat) < 1
    ∧ (logitVec wModel (List.range 1)).getD 0 0
        = torchMean (column (stackedLogits [wModel, wModel] 1) 0)
    ∧ 2 ≤ ([wModel, wModel] : List Model).length
    ∧ (liraScores wModel [wModel, wModel] 1).getD 0 none = some (1 / 2) := by
  have hmean : (logitVec wModel (List.range 1)).getD 0 0
      = torchMean (column (stackedLogits [wModel, wModel] 1) 0) := by
    rw [wModel_logitVec, wModel_mean]
    simp
  exact ⟨by norm_num, hmean, by simp,
    (lira_run_attack_formula wModel [wModel, wModel] 1 0 (by norm_num)).2 hmean (by simp)⟩

/-- C10: with a single retained shadow model, the per-node sample standard
deviation (Bessel-corrected over one value) is NaN for every query node, so
every membership score produced by `run_attack` is NaN; the score vector is
still produced for all `n` nodes — no error is raised. -/
theorem lira_single_shadow_nan (target s : Model) (n : Nat) :
    (liraScores target [s] n).length = n
    ∧ (∀ j, j < n → (liraStds [s] n).getD j none = none)
    ∧ ∀ y ∈ liraScores target [s] n, y = none := by
  have hstd : ∀ j, j < n → (liraStds [s] n).getD j none = none := by
    intro j hj
    unfold liraStds
    rw [getD_map_range _ _ hj]
    unfold torchStd
    rw [if_pos (show (column (stackedLogits [s] n) j).length ≤ 1 by
      rw [column_length, stackedLogits_length]; simp)]
  refine ⟨by simp [liraScores], hstd, ?_⟩
  intro y hy
  simp only [liraScores, List.mem_map] at hy
  obtain ⟨j, hj, rfl⟩ := hy
  rw [hstd j (List.mem_range.mp hj)]
  rfl

/-- C10 witness: the NaN degeneracy instantiated on a concrete one-model
ensemble and one query node. -/
theorem lira_single_shadow_nan_witness :
    (0 : Nat) < 1 ∧ (liraStds [wModel] 1).getD 0 none = none :=
  ⟨by norm_num, (lira_single_shadow_nan wModel wModel 1).2.1 0 (by norm_num)⟩

end MIA
